import Mathlib

/-!
# Verification of the otp-manager TOTP engine and secret store

Shallow embedding of the TOTP code generator (`TOTPGenerator` in
`src/popup.js`, duplicated in the background service worker) and the
domain-keyed secret store (`StorageManager` in `src/popup.js`), together
with the form-submission path of `UIController` that feeds the store.

Conventions of the embedding:
* JavaScript numbers that the code only ever uses as non-negative
  integers are modelled as `Nat`; 32-bit effects (`DataView.setUint32`,
  the `|`/`<<` int32 operators) are made explicit with `% 2^32` or are
  proved to stay below `2^31` so that `Nat` arithmetic agrees.
* JavaScript byte arrays (`Uint8Array`) are `List Nat` whose theorems
  carry the invariant that entries are `< 256`.
* The platform HMAC (`crypto.subtle`) is not part of this repository;
  it enters as a function parameter `hm : List Nat → List Nat → Option (List Nat)`,
  `none` standing for a platform exception (the source wraps the call in
  `try`/`catch` and any exception becomes the error `"Invalid secret key"`).
* Fallible code returns `Option`/`Except`; `throw new Error(msg)` becomes
  `Except.error msg`.
* `chrome.storage.local` is a durable key-to-value map from domain
  strings to buckets; it is modelled as the total function
  `Store := String → List SecretRec` with missing keys reading as `[]`,
  exactly matching `result[domain] || []` in the source.
-/

deriving instance DecidableEq for Except

namespace OtpManager

/-! ## Codec: Base32 decoding (`TOTPGenerator.base32Decode`) -/

/-- The RFC 4648 alphabet string from the source:
`const base32Chars = 'ABCDEFGHIJKLMNOPQRSTUVWXYZ234567'`. -/
def base32Chars : String := "ABCDEFGHIJKLMNOPQRSTUVWXYZ234567"

/-- `encoded.replace(/=+$/, '')`: strip all trailing `=` characters. -/
def stripTrailingEq (s : String) : String :=
  ⟨(s.data.reverse.dropWhile (fun c => c = '=')).reverse⟩

/-- `base32Chars.indexOf(encoded.charAt(i).toUpperCase())`, with the source's
`-1` sentinel rendered as `none`.  (JS `toUpperCase` and `Char.toUpper` agree
on the ASCII range, which is all the alphabet contains.) -/
def charVal (c : Char) : Option Nat :=
  base32Chars.data.findIdx? (fun a => a == c.toUpper)

/-- `val.toString(2).padStart(5, '0')`: the 5 bits of a value `< 32`,
most significant first. -/
def toBits5 (v : Nat) : List Bool :=
  (List.range 5).map (fun i => v.testBit (4 - i))

/-- `parseInt(bits.substr(i * 8, 8), 2)`: read a big-endian bit chunk. -/
def bitsToNat (bs : List Bool) : Nat :=
  bs.foldl (fun a b => 2 * a + (if b then 1 else 0)) 0

/-- `TOTPGenerator.base32Decode` (`src/popup.js:3-20`): strip trailing `=`,
map each character through the alphabet (error on a miss), concatenate the
5-bit values, and keep the largest whole number of 8-bit bytes. -/
def base32Decode (s : String) : Option (List Nat) :=
  match (stripTrailingEq s).data.mapM charVal with
  | none => none
  | some vals =>
    let bits := (vals.map toBits5).flatten
    some ((List.range (bits.length / 8)).map
      (fun i => bitsToNat ((bits.drop (8 * i)).take 8)))

/-- `TOTPGenerator.validateSecret` (`src/popup.js:63-70`): `true` iff
`base32Decode` does not throw. -/
def validateSecret (s : String) : Bool :=
  (base32Decode s).isSome

/-! ## Codec: code generation (`TOTPGenerator.generateTOTP`) -/

/-- Decimal digit characters of a non-negative integer, most significant
first; `fuel`-structured so that the kernel can evaluate it (the fuel
`n + 1` always suffices since the argument shrinks by a factor of 10). -/
def natDigitsGo : Nat → Nat → List Char
  | 0, _ => []
  | fuel + 1, n =>
    if n < 10 then [Char.ofNat (48 + n)]
    else natDigitsGo fuel (n / 10) ++ [Char.ofNat (48 + n % 10)]

/-- JS `Number.prototype.toString()` on a non-negative integer:
its decimal digit characters, most significant first. -/
def natToString (n : Nat) : String := ⟨natDigitsGo (n + 1) n⟩

/-- JS `String.prototype.padStart(n, c)`: left-pad to length `n`
(no change when the string is already at least that long). -/
def padStart (s : String) (n : Nat) (c : Char) : String :=
  ⟨List.replicate (n - s.data.length) c ++ s.data⟩

/-- `timestamp || Math.floor(Date.now() / 1000)` (`src/popup.js:33`):
the default `null` and the number `0` are both falsy, so both select the
ambient clock `now`. -/
def effectiveTime (timestamp : Option Nat) (now : Nat) : Nat :=
  match timestamp with
  | none => now
  | some t => if t = 0 then now else t

/-- The four bytes written by `counterView.setUint32(4, counter, false)`:
big-endian bytes of the value (already reduced mod `2^32` by `ToUint32`). -/
def be4 (n : Nat) : List Nat :=
  [n / 2 ^ 24 % 256, n / 2 ^ 16 % 256, n / 2 ^ 8 % 256, n % 256]

/-- The 8-byte HMAC message of `src/popup.js:34-38`: a zero-initialised
8-byte `ArrayBuffer` whose bytes 4..7 receive
`setUint32(4, Math.floor(time / period), false)`; `ToUint32` reduces the
counter mod `2^32`. -/
def counterMessage (time period : Nat) : List Nat :=
  [0, 0, 0, 0] ++ be4 (time / period % 2 ^ 32)

/-- The dynamic-truncation expression of `src/popup.js:41-48`, verbatim:
`offset = hmac[hmac.length - 1] & 0xf`, then the masked big-endian read of
four bytes via int32 `<<`/`|` (proved below to agree with plain arithmetic),
reduced `% Math.pow(10, digits)`.  Out-of-range indexing yields `undefined`
in JS; a SHA-1 digest has 20 bytes so all reads are in range, and the
theorems below carry that length hypothesis. -/
def truncCode (h : List Nat) (digits : Nat) : Nat :=
  let offset := h.getD (h.length - 1) 0 &&& 0xf
  ((((h.getD offset 0) &&& 0x7f) <<< 24) |||
   (((h.getD (offset + 1) 0) &&& 0xff) <<< 16) |||
   (((h.getD (offset + 2) 0) &&& 0xff) <<< 8) |||
   ((h.getD (offset + 3) 0) &&& 0xff)) % 10 ^ digits

/-- The record returned by `generateTOTP` in `src/popup.js:53-57`.
The source also returns `progress = ((period - timeRemaining) / period) * 100`,
a float used only to draw the countdown bar; floating-point display output is
outside this model and no claim mentions it, so the field is omitted. -/
structure TOTPResult where
  code : String
  timeRemaining : Nat
deriving DecidableEq

/-- `TOTPGenerator.generateTOTP` (`src/popup.js:30-61`; the copy in the
background worker, `src/unnamed/part_000:32-56`, is identical except that it
returns only the `code` string).  `hm` is the platform HMAC-SHA1; the
`try`/`catch` turns a decoding failure or a platform exception into the one
error `"Invalid secret key"`. -/
def generateTOTP (hm : List Nat → List Nat → Option (List Nat))
    (secret : String) (timestamp : Option Nat) (digits period : Nat)
    (now : Nat) : Except String TOTPResult :=
  match base32Decode secret with
  | none => .error "Invalid secret key"
  | some key =>
    let time := effectiveTime timestamp now
    match hm key (counterMessage time period) with
    | none => .error "Invalid secret key"
    | some h =>
      .ok { code := padStart (natToString (truncCode h digits)) digits '0',
            timeRemaining := period - time % period }

/-! ## Codec: spec-side definitions for refinement claims -/

/-- Modelled from the spec, for comparison with `counterMessage`:
"Compute `counter = floor(unixTimeSeconds / period)` and serialize it as an
8-byte big-endian unsigned integer". -/
def beBytes8 (counter : Nat) : List Nat :=
  [counter / 2 ^ 56 % 256, counter / 2 ^ 48 % 256,
   counter / 2 ^ 40 % 256, counter / 2 ^ 32 % 256,
   counter / 2 ^ 24 % 256, counter / 2 ^ 16 % 256,
   counter / 2 ^ 8 % 256, counter % 256]

/-- Modelled from the spec, for comparison with `truncCode`:
"`offset = digest[last byte] & 0x0F`; take 4 bytes starting at `offset`,
mask the most significant bit of the first of those bytes (`& 0x7F`),
interpret the 4 bytes as a big-endian unsigned 32-bit integer, then reduce
`mod 10^digits`." -/
def dynamicTruncationSpec (digest : List Nat) (digits : Nat) : Nat :=
  let offset := digest.getD (digest.length - 1) 0 &&& 0x0f
  ((digest.getD offset 0 &&& 0x7f) * 2 ^ 24 +
   digest.getD (offset + 1) 0 * 2 ^ 16 +
   digest.getD (offset + 2) 0 * 2 ^ 8 +
   digest.getD (offset + 3) 0) % 10 ^ digits

/-! ## SecretStore (`StorageManager`, `src/popup.js:74-161`) -/

/-- A secret record as persisted in `chrome.storage.local`.  The timestamp
fields are `Option` because a JS object may simply lack them (`undefined`):
`saveSecret`'s edit branch rebuilds the record from its argument via
`{ ...secret, updatedAt: ... }`, so whatever timestamps the argument carries
(or does not carry) are what gets stored. -/
structure SecretRec where
  id : String
  name : String
  website : String
  secret : String
  issuer : String
  algorithm : String
  digits : Nat
  period : Nat
  createdAt : Option String
  updatedAt : Option String
deriving DecidableEq

/-- The argument object of `StorageManager.saveSecret`.  `id` is `none` when
the caller did not set one (the add path); `createdAt`/`updatedAt` are `none`
unless the caller supplied them (no caller in the source does). -/
structure SecretInput where
  id : Option String
  name : String
  website : String
  secret : String
  issuer : String
  algorithm : String
  digits : Nat
  period : Nat
  createdAt : Option String
  updatedAt : Option String
deriving DecidableEq

/-- `chrome.storage.local`: a durable map from domain keys to buckets;
a missing key reads as `[]` (`result[domain] || []`). -/
def Store : Type := String → List SecretRec

/-- Storage with no keys set. -/
def emptyStore : Store := fun _ => []

/-- `StorageManager.getSecretsForDomain` (`src/popup.js:75-78`). -/
def getSecretsForDomain (st : Store) (domain : String) : List SecretRec :=
  st domain

/-- `chrome.storage.local.set({ [domain]: secrets })`: update one key. -/
def setDomain (st : Store) (domain : String) (l : List SecretRec) : Store :=
  fun d => if d = domain then l else st d

/-- The record built by the edit branch of `saveSecret`
(`src/popup.js:98`): `{ ...secret, updatedAt: new Date().toISOString() }`.
Every field comes from the argument object, so a missing `createdAt` on the
argument leaves the stored record without one. -/
def updatedRecord (inp : SecretInput) (now : String) : SecretRec :=
  { id := inp.id.getD "", name := inp.name, website := inp.website,
    secret := inp.secret, issuer := inp.issuer, algorithm := inp.algorithm,
    digits := inp.digits, period := inp.period,
    createdAt := inp.createdAt, updatedAt := some now }

/-- The record pushed by the create branch of `saveSecret`
(`src/popup.js:100-103`): the argument object after
`secret.id = this.generateId(); secret.createdAt = secret.updatedAt = now`. -/
def createdRecord (inp : SecretInput) (now fid : String) : SecretRec :=
  { id := fid, name := inp.name, website := inp.website,
    secret := inp.secret, issuer := inp.issuer, algorithm := inp.algorithm,
    digits := inp.digits, period := inp.period,
    createdAt := some now, updatedAt := some now }

/-- `StorageManager.saveSecret` (`src/popup.js:93-107`): read the bucket of
`secret.website`, look for an entry whose `id` equals `secret.id`
(`findIndex(s => s.id === secret.id)`); replace it in place when found,
otherwise mint a fresh id (`generateId()`, here the parameter `fid`), stamp
both timestamps, and push at the end; write the bucket back. -/
def saveSecret (st : Store) (inp : SecretInput) (now fid : String) : Store :=
  let secrets := getSecretsForDomain st inp.website
  match secrets.findIdx? (fun s => inp.id == some s.id) with
  | some i => setDomain st inp.website (secrets.set i (updatedRecord inp now))
  | none => setDomain st inp.website (secrets ++ [createdRecord inp now fid])

/-- `StorageManager.deleteSecret` (`src/popup.js:109-113`). -/
def deleteSecret (st : Store) (secretId domain : String) : Store :=
  setDomain st domain ((getSecretsForDomain st domain).filter
    (fun s => s.id != secretId))

/-! ## Import (`StorageManager.importSecrets`, `src/popup.js:131-156`) -/

/-- One entry of a parsed import document: a JSON object whose fields may
be absent (`none`).  String-valued fields are modelled as strings, the
numeric `digits`/`period` as numbers. -/
structure ImportEntry where
  website : Option String
  name : Option String
  secret : Option String
  issuer : Option String
  digits : Option Nat
  period : Option Nat
deriving DecidableEq

/-- The parsed top-level import document.  `secrets = none` models a
document whose `secrets` field is missing, falsy, or not an array — every
shape on which `!data.secrets || !Array.isArray(data.secrets)` trips. -/
structure ImportDoc where
  secrets : Option (List ImportEntry)

/-- JS falsiness of a possibly-missing string field
(`undefined` and `''` are falsy). -/
def falsyStr : Option String → Bool
  | none => true
  | some s => s == ""

/-- `x || dflt` on a possibly-missing numeric field (`undefined` and `0`
are falsy). -/
def falsyNumTo (dflt : Nat) : Option Nat → Nat
  | none => dflt
  | some 0 => dflt
  | some n => n

/-- The object passed to `this.saveSecret` inside the import loop
(`src/popup.js:143-151`): no `id`, no timestamps, defaulted
`issuer`/`digits`/`period`, fixed algorithm. -/
def entryToInput (e : ImportEntry) : SecretInput :=
  { id := none, name := e.name.getD "", website := e.website.getD "",
    secret := e.secret.getD "", issuer := e.issuer.getD "",
    algorithm := "SHA1",
    digits := falsyNumTo 6 e.digits, period := falsyNumTo 30 e.period,
    createdAt := none, updatedAt := none }

/-- The negation of the import loop's skip guard: `true` exactly for the
entries the loop saves. -/
def keptEntry (e : ImportEntry) : Bool :=
  !(falsyStr e.website || falsyStr e.name || falsyStr e.secret)

/-- The `for (const secret of data.secrets)` loop (`src/popup.js:138-152`):
skip an entry when `!secret.website || !secret.name || !secret.secret`,
otherwise save it.  `ids k` supplies the `generateId()` value of the
`k`-th save performed by this import. -/
def importLoop (now : String) (ids : Nat → String) :
    List ImportEntry → Store → Nat → Store
  | [], st, _ => st
  | e :: rest, st, k =>
    if falsyStr e.website || falsyStr e.name || falsyStr e.secret then
      importLoop now ids rest st k
    else
      importLoop now ids rest (saveSecret st (entryToInput e) now (ids k)) (k + 1)

/-- `StorageManager.importSecrets` (`src/popup.js:131-156`), applied to the
already-parsed document (the claim and spec speak of "the parsed document";
a JSON syntax error would abort before this logic is reached).  The function
body contains no `return` statement, so a successful run resolves to
`undefined`: the result value is modelled as `Option Nat` (the type the spec
ascribes to it, a count) and is always `none`.  A malformed shape throws
`'Invalid import format'`, which the surrounding `catch` re-throws with the
`'Failed to import secrets: '` prefix. -/
def importSecrets (doc : ImportDoc) (st : Store) (now : String)
    (ids : Nat → String) : Except String (Store × Option Nat) :=
  match doc.secrets with
  | none => .error "Failed to import secrets: Invalid import format"
  | some entries => .ok (importLoop now ids entries st 0, none)

/-! ## UI form path (`UIController.handleFormSubmit`, `src/popup.js:415-452`) -/

/-- JS `\s` (ASCII part) for `replace(/\s/g, '')`; the secret-key strings in
scope are Base32 text, so the ASCII class is the relevant one. -/
def jsWhitespace (c : Char) : Bool :=
  c == ' ' || c == '\t' || c == '\n' || c == '\r' || c == '\x0b' || c == '\x0c'

/-- JS `String.prototype.trim()`: strip whitespace from both ends.
(JS also strips some Unicode spaces; every string these claims touch is
ASCII, where the two notions agree.) -/
def jsTrim (s : String) : String :=
  ⟨((s.data.dropWhile jsWhitespace).reverse.dropWhile jsWhitespace).reverse⟩

/-- `value.trim().replace(/\s/g, '')` applied to the secret-key textarea. -/
def removeSpaces (s : String) : String :=
  ⟨s.data.filter (fun c => !jsWhitespace c)⟩

/-- The text fields of the add/edit form as the user submitted them. -/
structure FormState where
  name : String
  website : String
  secretKeyText : String
  issuer : String
  digits : Nat
  period : Nat

/-- The secret object built by `handleFormSubmit` (`src/popup.js:420-428`,
`441-444`): trimmed fields, whitespace-stripped key, name defaulting to the
website, fixed algorithm, and the id being edited when there is one
(`secret.id = this.editingSecret.id`). -/
def formInput (form : FormState) (editing : Option String) : SecretInput :=
  { id := editing,
    name := if jsTrim form.name = "" then jsTrim form.website
            else jsTrim form.name,
    website := jsTrim form.website,
    secret := removeSpaces (jsTrim form.secretKeyText),
    issuer := jsTrim form.issuer,
    algorithm := "SHA1",
    digits := form.digits, period := form.period,
    createdAt := none, updatedAt := none }

/-- `UIController.handleFormSubmit` (`src/popup.js:415-452`), state-passing
form: build the secret object from the form, reject when a required field
is empty (`!secret.website || !secret.secret`) or the key fails
`validateSecret`, otherwise call `saveSecret`.  `none` models the early
returns that only show a validation message and leave storage untouched. -/
def handleFormSubmit (form : FormState) (editing : Option String)
    (st : Store) (now fid : String) : Option Store :=
  let inp := formInput form editing
  if inp.website = "" || inp.secret = "" then none
  else if !validateSecret inp.secret then none
  else some (saveSecret st inp now fid)

/-! ## Concrete instances used by witnesses and counterexamples

`hmacConst0` stands in for the platform HMAC-SHA1 in concrete evaluations:
the embedding is parametric in the HMAC function, so any function producing
a 20-byte digest exercises the surrounding logic; the all-zero digest keeps
the arithmetic easy to check by hand. -/

/-- A stand-in platform HMAC returning a constant 20-byte (SHA-1-sized)
all-zero digest. -/
def hmacConst0 : List Nat → List Nat → Option (List Nat) :=
  fun _ _ => some (List.replicate 20 0)

/-- A fresh-id supply for concrete import runs. -/
def idSupply : Nat → String := fun k => natToString k

/-- A stored record living in the bucket of website `w1`. -/
def recW1 : SecretRec :=
  { id := "a", name := "n", website := "w1", secret := "GEZDGNBV",
    issuer := "", algorithm := "SHA1", digits := 6, period := 30,
    createdAt := some "T0", updatedAt := some "T0" }

/-- A one-record store: bucket `w1` holds `recW1`. -/
def storeW1 : Store := setDomain emptyStore "w1" [recW1]

/-- An update of `recW1`'s id that moves it to website `w2`. -/
def inpMove : SecretInput :=
  { id := some "a", name := "n", website := "w2", secret := "GEZDGNBV",
    issuer := "", algorithm := "SHA1", digits := 6, period := 30,
    createdAt := none, updatedAt := none }

/-- An update naming an id that exists nowhere. -/
def inpGhost : SecretInput :=
  { id := some "ghost", name := "g", website := "w", secret := "GEZDGNBV",
    issuer := "", algorithm := "SHA1", digits := 6, period := 30,
    createdAt := none, updatedAt := none }

/-- A stored record in bucket `w`, with both timestamps set. -/
def recW : SecretRec :=
  { id := "a", name := "n", website := "w", secret := "GEZDGNBV",
    issuer := "", algorithm := "SHA1", digits := 6, period := 30,
    createdAt := some "T0", updatedAt := some "T0" }

/-- A one-record store: bucket `w` holds `recW`. -/
def storeW : Store := setDomain emptyStore "w" [recW]

/-- The edit form re-submitting `recW`'s data unchanged. -/
def formW : FormState :=
  { name := "n", website := "w", secretKeyText := "GEZDGNBV",
    issuer := "", digits := 6, period := 30 }

/-- A fresh add through the form for website `g.com`. -/
def formAdd : FormState :=
  { name := "acct", website := "g.com", secretKeyText := "GEZDGNBV",
    issuer := "", digits := 6, period := 30 }

/-- The record that submitting `formAdd` on an empty store creates. -/
def recAdded : SecretRec :=
  { id := "id1", name := "acct", website := "g.com", secret := "GEZDGNBV",
    issuer := "", algorithm := "SHA1", digits := 6, period := 30,
    createdAt := some "T", updatedAt := some "T" }

/-- A well-formed import entry for website `a`. -/
def entKeepA : ImportEntry :=
  { website := some "a", name := some "n1", secret := some "GEZDGNBV",
    issuer := none, digits := none, period := none }

/-- An import entry with no `secret` field: skipped, not fatal. -/
def entNoSecret : ImportEntry :=
  { website := some "c", name := some "n2", secret := none,
    issuer := none, digits := none, period := none }

/-- A well-formed import entry for website `b`. -/
def entKeepB : ImportEntry :=
  { website := some "b", name := some "n3", secret := some "MFRGG",
    issuer := none, digits := none, period := none }

/-- The spec's own test document: three entries, one missing its secret. -/
def docThree : ImportDoc := { secrets := some [entKeepA, entNoSecret, entKeepB] }

/-- An import document whose only entry carries the undecodable
secret key `"1"` (`'1'` is outside the Base32 alphabet). -/
def docBadKey : ImportDoc :=
  { secrets := some [{ website := some "a", name := some "b", secret := some "1",
                       issuer := none, digits := none, period := none }] }

/-! ## Helper lemmas -/

/-- `|` of a shifted value with a small value is addition. -/
lemma lor_shift (a b n : Nat) (h : b < 2 ^ n) : (a <<< n) ||| b = a <<< n + b := by
  rw [Nat.shiftLeft_eq, Nat.mul_comm a (2 ^ n)]
  exact (Nat.mul_add_lt_is_or h a).symm

/-- The int32 `<<`/`|` assembly of four bytes is the big-endian value. -/
lemma four_bytes_lor (a b c d : Nat) (hb : b < 2 ^ 8)
    (hc : c < 2 ^ 8) (hd : d < 2 ^ 8) :
    (a <<< 24) ||| (b <<< 16) ||| (c <<< 8) ||| d =
      a * 2 ^ 24 + b * 2 ^ 16 + c * 2 ^ 8 + d := by
  have hcd : (c <<< 8) + d < 2 ^ 16 := by
    rw [Nat.shiftLeft_eq]
    simp only [show (2:Nat)^8 = 256 from rfl, show (2:Nat)^16 = 65536 from rfl] at *
    omega
  have hbcd : (b <<< 16) + ((c <<< 8) + d) < 2 ^ 24 := by
    rw [Nat.shiftLeft_eq, Nat.shiftLeft_eq]
    simp only [show (2:Nat)^8 = 256 from rfl, show (2:Nat)^16 = 65536 from rfl,
      show (2:Nat)^24 = 16777216 from rfl] at *
    omega
  rw [Nat.or_assoc, Nat.or_assoc, lor_shift c d 8 hd, lor_shift b _ 16 hcd,
    lor_shift a _ 24 hbcd, Nat.shiftLeft_eq, Nat.shiftLeft_eq, Nat.shiftLeft_eq]
  ring

/-- Masking a byte with `0xff` is the identity. -/
lemma and_255_eq (b : Nat) (hb : b < 256) : b &&& 0xff = b := by
  have h : (0xff : Nat) = 2 ^ 8 - 1 := rfl
  rw [h, Nat.and_pow_two_sub_one_eq_mod, Nat.mod_eq_of_lt (by simpa using hb)]

/-- Reading a byte list (with default 0) stays below 256. -/
lemma getD_lt_256 (l : List Nat) (hb : ∀ x ∈ l, x < 256) (i : Nat) :
    l.getD i 0 < 256 := by
  rcases h : l[i]? with _ | b
  · simp [List.getD_eq_getElem?_getD, h]
  · rw [List.getD_eq_getElem?_getD, h]
    exact hb b (List.getElem?_mem h)

/-- The source's int32 truncation expression equals the spec's
big-endian-and-add description on byte-valued digests. -/
lemma truncCode_eq_spec (h : List Nat) (digits : Nat)
    (hb : ∀ x ∈ h, x < 256) :
    truncCode h digits = dynamicTruncationSpec h digits := by
  simp only [truncCode, dynamicTruncationSpec]
  have h1 := getD_lt_256 h hb
  have e1 := and_255_eq _ (h1 ((h.getD (h.length - 1) 0 &&& 0xf) + 1))
  have e2 := and_255_eq _ (h1 ((h.getD (h.length - 1) 0 &&& 0xf) + 2))
  have e3 := and_255_eq _ (h1 ((h.getD (h.length - 1) 0 &&& 0xf) + 3))
  rw [e1, e2, e3, four_bytes_lor]
  · exact h1 _
  · exact h1 _
  · exact h1 _

/-- The truncated code value is below `10 ^ digits`. -/
lemma truncCode_lt (h : List Nat) (digits : Nat) :
    truncCode h digits < 10 ^ digits := by
  unfold truncCode
  exact Nat.mod_lt _ (Nat.pow_pos (by omega))

/-- A number below `10 ^ (d + 1)` prints in at most `d + 1` digits. -/
lemma natDigitsGo_length : ∀ (fuel d n : Nat), n < fuel → n < 10 ^ (d + 1) →
    (natDigitsGo fuel n).length ≤ d + 1 := by
  intro fuel
  induction fuel with
  | zero => omega
  | succ fuel ih =>
    intro d n hfuel hn
    unfold natDigitsGo
    by_cases h10 : n < 10
    · simp [h10]
    · simp only [h10, if_false, List.length_append, List.length_cons, List.length_nil]
      rcases d with _ | d
      · omega
      · have hdiv : n / 10 < 10 ^ (d + 1) := by
          rw [Nat.div_lt_iff_lt_mul (by omega)]
          calc n < 10 ^ (d + 1 + 1) := hn
            _ = 10 ^ (d + 1) * 10 := by rw [Nat.pow_succ]
        have hfuel2 : n / 10 < fuel := by
          have : n / 10 < n := Nat.div_lt_self (by omega) (by omega)
          omega
        have := ih d (n / 10) hfuel2 hdiv
        omega

/-- Padding a short string to `n` yields length exactly `n`. -/
lemma padStart_data_length (s : String) (n : Nat) (c : Char)
    (h : s.data.length ≤ n) : (padStart s n c).data.length = n := by
  simp only [padStart, List.length_append, List.length_replicate]
  omega

/-- Printing a value below `10 ^ d` (`d ≥ 1`) takes at most `d` characters. -/
lemma natToString_length_le (v d : Nat) (hd : 1 ≤ d) (hv : v < 10 ^ d) :
    (natToString v).data.length ≤ d := by
  obtain ⟨e, rfl⟩ : ∃ e, d = e + 1 := ⟨d - 1, by omega⟩
  exact natDigitsGo_length (v + 1) e v (by omega) hv

/-- Evaluation of `generateTOTP` when decoding and the HMAC both succeed. -/
lemma generateTOTP_ok (hm : List Nat → List Nat → Option (List Nat))
    (s : String) (key digest : List Nat) (ts : Option Nat) (d p now : Nat)
    (hkey : base32Decode s = some key)
    (hdig : hm key (counterMessage (effectiveTime ts now) p) = some digest) :
    generateTOTP hm s ts d p now =
      .ok { code := padStart (natToString (truncCode digest d)) d '0',
            timeRemaining := p - effectiveTime ts now % p } := by
  simp only [generateTOTP, hkey, hdig]


/-- When no record of the target bucket matches the incoming id,
`saveSecret` takes the create branch: fresh id appended at the end. -/
lemma saveSecret_create (st : Store) (inp : SecretInput) (now fid : String)
    (h : ∀ s ∈ st inp.website, inp.id ≠ some s.id) :
    saveSecret st inp now fid =
      setDomain st inp.website (st inp.website ++ [createdRecord inp now fid]) := by
  have hnone : (st inp.website).findIdx? (fun s => inp.id == some s.id) = none :=
    List.findIdx?_eq_none_iff.mpr (fun s hs => by simpa using h s hs)
  simp only [saveSecret, getSecretsForDomain, hnone]

/-- Every record present after `saveSecret` was already stored or carries
the incoming object's `secret` string. -/
lemma saveSecret_mem (st : Store) (inp : SecretInput) (now fid : String)
    (d : String) (r : SecretRec)
    (hr : r ∈ (saveSecret st inp now fid) d) :
    r ∈ st d ∨ r.secret = inp.secret := by
  rcases hidx : (st inp.website).findIdx? (fun s => inp.id == some s.id) with _ | i <;>
    simp only [saveSecret, getSecretsForDomain, hidx, setDomain] at hr <;>
    split at hr
  · rcases List.mem_append.mp hr with h | h
    · subst_vars; exact Or.inl h
    · simp only [List.mem_singleton] at h
      exact Or.inr (by rw [h]; rfl)
  · exact Or.inl hr
  · rcases List.mem_or_eq_of_mem_set hr with h | h
    · subst_vars; exact Or.inl h
    · exact Or.inr (by rw [h]; rfl)
  · exact Or.inl hr

/-- Bucket sizes after the import loop: each bucket grows by the number of
kept entries targeting it. -/
lemma importLoop_bucket_length (now : String) (ids : Nat → String) :
    ∀ (entries : List ImportEntry) (st : Store) (k : Nat) (d : String),
    ((importLoop now ids entries st k) d).length =
      (st d).length +
        entries.countP (fun e => keptEntry e && (e.website.getD "" == d)) := by
  intro entries
  induction entries with
  | nil => intro st k d; simp [importLoop]
  | cons e rest ih =>
    intro st k d
    by_cases hkeep : (falsyStr e.website || falsyStr e.name || falsyStr e.secret) = true
    · have hk : keptEntry e = false := by simp [keptEntry, hkeep]
      rw [importLoop, if_pos hkeep, ih, List.countP_cons_of_neg]
      simp [hk]
    · have hkeep' : (falsyStr e.website || falsyStr e.name || falsyStr e.secret) = false := by
        simpa using hkeep
      have hk : keptEntry e = true := by simp [keptEntry, hkeep']
      have hcreate := saveSecret_create st (entryToInput e) now (ids k)
        (fun s _ => by simp [entryToInput])
      rw [importLoop, if_neg (by simp [hkeep']), ih, hcreate, List.countP_cons]
      simp only [hk, Bool.true_and, setDomain, entryToInput]
      by_cases hd : d = e.website.getD ""
      · subst hd
        rw [if_pos rfl, if_pos (by simp)]
        simp only [List.length_append, List.length_singleton]
        omega
      · have hbeq : (e.website.getD "" == d) = false := by
          simp only [beq_eq_false_iff_ne]
          exact fun h => hd h.symm
        rw [if_neg hd, if_neg (by simp [hbeq])]
        omega

/-! # Claim theorems -/

/-! ## Claim C1 -/

/-- Claim C1, counterexample: updating id `a` (stored in bucket `w1`) with
`website = w2` does not relocate the record — bucket `w1` still contains a
record with id `a`, and no record in bucket `w2` carries the original id. -/
theorem saveSecret_website_change_not_relocated :
    ((saveSecret storeW1 inpMove "T1" "fresh") "w1").any (fun r => r.id == "a") = true ∧
    ((saveSecret storeW1 inpMove "T1" "fresh") "w2").all (fun r => r.id != "a") = true := by
  decide

/-- Claim C1 as amended: when the incoming id matches nothing in the
`fields.website` bucket (in particular when the record lives in a different
bucket), `saveSecret` leaves every other bucket — including the old one —
untouched and appends a newly created record whose id is the freshly minted
one, not the original. -/
theorem saveSecret_website_change_duplicates (st : Store) (inp : SecretInput)
    (now fid : String)
    (habsent : ∀ s ∈ st inp.website, inp.id ≠ some s.id) :
    (saveSecret st inp now fid) inp.website =
      st inp.website ++ [createdRecord inp now fid] ∧
    (createdRecord inp now fid).id = fid ∧
    ∀ d, d ≠ inp.website → (saveSecret st inp now fid) d = st d := by
  rw [saveSecret_create st inp now fid habsent]
  refine ⟨by simp [setDomain], rfl, fun d hd => by simp [setDomain, hd]⟩

/-- Claim C1, witness: the amended statement evaluated on the concrete
one-record store. -/
theorem saveSecret_website_change_duplicates_witness :
    (saveSecret storeW1 inpMove "T1" "fresh") "w2" =
      storeW1 "w2" ++ [createdRecord inpMove "T1" "fresh"] ∧
    (saveSecret storeW1 inpMove "T1" "fresh") "w1" = storeW1 "w1" := by
  have h := saveSecret_website_change_duplicates storeW1 inpMove "T1" "fresh"
    (fun s hs => by simp [storeW1, setDomain, emptyStore, inpMove] at hs)
  exact ⟨h.1, h.2.2 "w1" (by decide)⟩

/-! ## Claim C2 -/

/-- Claim C2, counterexample: `importSecrets` persists the entry whose
secret key is the undecodable string `"1"` — the stored record's key fails
`base32Decode`, so the import path does not maintain the invariant. -/
theorem importSecrets_persists_undecodable :
    (importSecrets docBadKey emptyStore "T" idSupply).map
      (fun q => (q.1 "a").map (fun r => (r.secret, base32Decode r.secret))) =
      .ok [("1", none)] := by
  decide

/-- Claim C2 as amended: the add/edit form path really does preserve the
invariant — any record present after a successful `handleFormSubmit` was
either already stored or has a secret that decodes — but `importSecrets`
performs no Base32 validation, so imported records need not decode. -/
theorem form_path_persists_only_decodable (form : FormState)
    (editing : Option String) (st : Store) (now fid : String) (st₁ : Store)
    (hsub : handleFormSubmit form editing st now fid = some st₁) :
    ∀ d r, r ∈ st₁ d → r ∈ st d ∨ (base32Decode r.secret).isSome = true := by
  simp only [handleFormSubmit] at hsub
  by_cases h1 : ((formInput form editing).website = ""
      || (formInput form editing).secret = "") = true
  · rw [if_pos h1] at hsub
    exact absurd hsub (by simp)
  · rw [if_neg h1] at hsub
    by_cases h2 : (!validateSecret (formInput form editing).secret) = true
    · rw [if_pos h2] at hsub
      exact absurd hsub (by simp)
    · rw [if_neg h2] at hsub
      have hval : validateSecret (formInput form editing).secret = true := by
        simpa using h2
      simp only [Option.some.injEq] at hsub
      subst hsub
      intro d r hr
      rcases saveSecret_mem st _ now fid d r hr with h | h
      · exact Or.inl h
      · exact Or.inr (by rw [h]; simpa [validateSecret] using hval)

/-- Claim C2, witness: the record created by submitting the add form with a
valid key on the empty store satisfies the invariant disjunction. -/
theorem form_path_persists_only_decodable_witness :
    recAdded ∈ emptyStore "g.com" ∨ (base32Decode recAdded.secret).isSome = true := by
  have h := form_path_persists_only_decodable formAdd none emptyStore "T" "id1"
    ((handleFormSubmit formAdd none emptyStore "T" "id1").getD emptyStore) (by rfl)
  exact h "g.com" recAdded (by decide)

/-! ## Claim C3 -/

/-- Claim C3, counterexample: with a decodable key, `digits = 7` (and
likewise `period = 45`) does not raise `UnsupportedParameters` — the call
succeeds and even returns a 7-character code. -/
theorem generateTOTP_digits7_succeeds :
    generateTOTP hmacConst0 "GEZDGNBV" (some 59) 7 30 99 =
      .ok { code := "0000000", timeRemaining := 1 } ∧
    generateTOTP hmacConst0 "GEZDGNBV" (some 59) 6 45 99 =
      .ok { code := "000000", timeRemaining := 31 } := by
  decide

/-- Claim C3 as amended: `generateTOTP` has exactly one failure mode, the
error `"Invalid secret key"`, raised precisely when Base32 decoding or the
platform HMAC fails; `digits` and `period` are never validated, so any
values of them (7, 45, ...) produce a code rather than an
`UnsupportedParameters` failure. -/
theorem generateTOTP_error_iff (hm : List Nat → List Nat → Option (List Nat))
    (s : String) (ts : Option Nat) (d p now : Nat) :
    (∀ e, generateTOTP hm s ts d p now = .error e → e = "Invalid secret key") ∧
    ((∃ r, generateTOTP hm s ts d p now = .ok r) ↔
      ∃ key, base32Decode s = some key ∧
        (hm key (counterMessage (effectiveTime ts now) p)).isSome = true) := by
  rcases hk : base32Decode s with _ | key
  · refine ⟨fun e he => ?_, ?_, ?_⟩
    · simp only [generateTOTP, hk, Except.error.injEq] at he
      exact he.symm
    · rintro ⟨r, hr⟩
      simp [generateTOTP, hk] at hr
    · rintro ⟨key, hkey, _⟩
      exact absurd hkey (by simp)
  · rcases hd : hm key (counterMessage (effectiveTime ts now) p) with _ | digest
    · refine ⟨fun e he => ?_, ?_, ?_⟩
      · simp only [generateTOTP, hk, hd, Except.error.injEq] at he
        exact he.symm
      · rintro ⟨r, hr⟩
        simp [generateTOTP, hk, hd] at hr
      · rintro ⟨key₁, hkey, hsome⟩
        simp only [Option.some.injEq] at hkey
        subst hkey
        rw [hd] at hsome
        exact absurd hsome (by simp)
    · refine ⟨fun e he => ?_, fun _ => ⟨key, rfl, by simp [hd]⟩, fun _ => ?_⟩
      · simp [generateTOTP, hk, hd] at he
      · exact ⟨_, generateTOTP_ok hm s key digest ts d p now hk hd⟩

/-- Claim C3, witness: the amended characterisation applied with decodable
key, `digits = 7`, `period = 45` shows the call succeeds. -/
theorem generateTOTP_error_iff_witness :
    ∃ r, generateTOTP hmacConst0 "GEZDGNBV" none 7 45 5 = .ok r :=
  (generateTOTP_error_iff hmacConst0 "GEZDGNBV" none 7 45 5).2.mpr
    ⟨[49, 50, 51, 52, 53], by decide, by decide⟩

/-! ## Claim C4 -/

/-- Claim C4, confirmed: when decoding and the HMAC succeed, the code is the
zero-padded decimal of the spec's dynamic-truncation value (offset from the
last digest byte, MSB of the first selected byte cleared, big-endian 32-bit
read, reduced mod `10^digits`), and for `digits ∈ {6, 8}` the code string
has length exactly `digits`. -/
theorem generateTOTP_dynamic_truncation
    (hm : List Nat → List Nat → Option (List Nat)) (s : String)
    (key digest : List Nat) (ts : Option Nat) (d p now : Nat)
    (hkey : base32Decode s = some key)
    (hdig : hm key (counterMessage (effectiveTime ts now) p) = some digest)
    (hlen : digest.length = 20)
    (hbytes : ∀ x ∈ digest, x < 256)
    (hd : d = 6 ∨ d = 8) :
    ∃ r, generateTOTP hm s ts d p now = .ok r ∧
      r.code = padStart (natToString (dynamicTruncationSpec digest d)) d '0' ∧
      r.code.length = d := by
  have _hlen := hlen
  refine ⟨_, generateTOTP_ok hm s key digest ts d p now hkey hdig, ?_, ?_⟩
  · rw [truncCode_eq_spec digest d hbytes]
  · have hd1 : 1 ≤ d := by rcases hd with h | h <;> omega
    show (padStart (natToString (truncCode digest d)) d '0').data.length = d
    exact padStart_data_length _ _ _
      (natToString_length_le _ _ hd1 (truncCode_lt digest d))

/-- Claim C4, witness: the truncation theorem evaluated at the constant
all-zero digest with `digits = 6`. -/
theorem generateTOTP_dynamic_truncation_witness :
    ∃ r, generateTOTP hmacConst0 "GEZDGNBV" (some 59) 6 30 99 = .ok r ∧
      r.code = padStart (natToString
        (dynamicTruncationSpec (List.replicate 20 0) 6)) 6 '0' ∧
      r.code.length = 6 :=
  generateTOTP_dynamic_truncation hmacConst0 "GEZDGNBV" [49, 50, 51, 52, 53]
    (List.replicate 20 0) (some 59) 6 30 99 (by decide) (by decide)
    (by decide) (by decide) (Or.inl rfl)

/-! ## Claim C5 -/

/-- Claim C5, counterexample: at `t = 30 * 2^32` with `period = 30` the
counter is `2^32`; the code's message is all zeros because `setUint32`
writes only the low 32 bits into bytes 4..7, while the 8-byte big-endian
serialization of the counter is `[0,0,0,1,0,0,0,0]`. -/
theorem counterMessage_large_counter_wrong :
    counterMessage (effectiveTime (some 128849018880) 0) 30 =
      [0, 0, 0, 0, 0, 0, 0, 0] ∧
    beBytes8 (128849018880 / 30) = [0, 0, 0, 1, 0, 0, 0, 0] ∧
    counterMessage (effectiveTime (some 128849018880) 0) 30 ≠
      beBytes8 (128849018880 / 30) := by
  decide

/-- Claim C5 as amended: for a supplied timestamp `t ≥ 1` whose counter
`t / period` fits in 32 bits, the HMAC message `generateTOTP` feeds to the
platform equals the 8-byte big-endian serialization of the counter; for
larger counters only the low 32 bits survive (and `t = 0` falls back to the
clock). -/
theorem counterMessage_eq_beBytes8 (t p now : Nat) (ht : 1 ≤ t)
    (hc : t / p < 2 ^ 32) :
    counterMessage (effectiveTime (some t) now) p = beBytes8 (t / p) := by
  rw [show effectiveTime (some t) now = t from by
    simp only [effectiveTime]; rw [if_neg (by omega)]]
  have hc' : t / p < 4294967296 := by simpa using hc
  have e1 : t / p / 72057594037927936 = 0 := Nat.div_eq_of_lt (by omega)
  have e2 : t / p / 281474976710656 = 0 := Nat.div_eq_of_lt (by omega)
  have e3 : t / p / 1099511627776 = 0 := Nat.div_eq_of_lt (by omega)
  have e4 : t / p / 4294967296 = 0 := Nat.div_eq_of_lt hc'
  have em : t / p % 4294967296 = t / p := Nat.mod_eq_of_lt hc'
  simp [counterMessage, be4, beBytes8, em, e1, e2, e3, e4]

/-- Claim C5, witness: the amended serialization statement at `t = 59`,
`period = 30`. -/
theorem counterMessage_eq_beBytes8_witness :
    counterMessage (effectiveTime (some 59) 0) 30 = beBytes8 (59 / 30) :=
  counterMessage_eq_beBytes8 59 30 0 (by decide) (by decide)

/-! ## Claim C6 -/

/-- Claim C6, counterexample: on the spec's own three-entry document the
importing succeeds but resolves to `undefined` (modelled `none`), not to the
count `2` the claim says it returns. -/
theorem importSecrets_returns_no_count :
    (importSecrets docThree emptyStore "T" idSupply).map (fun q => q.2) = .ok none ∧
    (importSecrets docThree emptyStore "T" idSupply).map (fun q => q.2) ≠ .ok (some 2) := by
  decide

/-- Claim C6 as amended: `importSecrets` fails (with the wrapped
`MalformedImport` message) exactly when the parsed document's `secrets`
field is missing or not a sequence; otherwise it silently skips every entry
missing `website`, `name`, or `secretKey`, saves each remaining entry into
its bucket, and resolves to `undefined` rather than a count. -/
theorem importSecrets_shape_and_skips (doc : ImportDoc) (st : Store)
    (now : String) (ids : Nat → String) :
    (doc.secrets = none →
      importSecrets doc st now ids =
        .error "Failed to import secrets: Invalid import format") ∧
    (∀ entries, doc.secrets = some entries →
      ∃ st₁, importSecrets doc st now ids = .ok (st₁, none) ∧
        ∀ d, (st₁ d).length = (st d).length +
          entries.countP (fun e => keptEntry e && (e.website.getD "" == d))) := by
  constructor
  · intro h; simp [importSecrets, h]
  · intro entries h
    refine ⟨importLoop now ids entries st 0, by simp [importSecrets, h], fun d => ?_⟩
    exact importLoop_bucket_length now ids entries st 0 d

/-- Claim C6, witness: the amended statement on the spec's three-entry
document — each bucket grows by the number of kept entries it receives, so
exactly two records (for `a` and `b`) are imported and none for `c`. -/
theorem importSecrets_shape_and_skips_witness :
    ∃ st₁, importSecrets docThree emptyStore "T" idSupply = .ok (st₁, none) ∧
      ∀ d, (st₁ d).length = (emptyStore d).length +
        [entKeepA, entNoSecret, entKeepB].countP
          (fun e => keptEntry e && (e.website.getD "" == d)) :=
  (importSecrets_shape_and_skips docThree emptyStore "T" idSupply).2
    [entKeepA, entNoSecret, entKeepB] rfl

/-! ## Claim C7 -/

/-- Claim C7, counterexample: `saveSecret` with an id that exists nowhere
does not fail and does not leave the store unchanged — it creates a record. -/
theorem saveSecret_unknown_id_no_notfound :
    (saveSecret emptyStore inpGhost "T" "f") "w" ≠ emptyStore "w" ∧
    (saveSecret emptyStore inpGhost "T" "f") "w" = [createdRecord inpGhost "T" "f"] := by
  decide

/-- Claim C7 as amended: when no record in any bucket carries the incoming
id, the operation cannot fail (it is total); it acts as a create, minting a
fresh id and appending the new record to the `fields.website` bucket. -/
theorem saveSecret_unknown_id_creates (st : Store) (inp : SecretInput)
    (now fid : String)
    (habsent : ∀ d, ∀ s ∈ st d, inp.id ≠ some s.id) :
    saveSecret st inp now fid =
      setDomain st inp.website (st inp.website ++ [createdRecord inp now fid]) :=
  saveSecret_create st inp now fid (fun s hs => habsent inp.website s hs)

/-- Claim C7, witness: the amended statement on the empty store. -/
theorem saveSecret_unknown_id_creates_witness :
    saveSecret emptyStore inpGhost "T" "f" =
      setDomain emptyStore "w" (emptyStore "w" ++ [createdRecord inpGhost "T" "f"]) :=
  saveSecret_unknown_id_creates emptyStore inpGhost "T" "f"
    (fun d s hs => by simp [emptyStore] at hs)

/-! ## Claim C8 -/

/-- Claim C8: editing an existing record through the form keeps its id and
refreshes `updatedAt`, but the stored record afterwards has no `createdAt`
at all (the edit branch rebuilds the record from the form object, which
carries none), even though the record had `createdAt = "T0"` before. -/
theorem handleFormSubmit_edit_drops_createdAt :
    (handleFormSubmit formW (some "a") storeW "T1" "fresh").map
      (fun st => (st "w").map (fun r => (r.id, r.createdAt, r.updatedAt))) =
      some [("a", (none : Option String), some "T1")] ∧
    (storeW "w").map (fun r => r.createdAt) = [some "T0"] := by
  decide

/-! ## Claim C9 -/

/-- Claim C9, counterexample: at `t = 0` the falsy-timestamp fallback makes
`secondsRemaining` depend on the clock (here 20 for a clock of 10), not the
claimed `period - (t mod period) = 30`. -/
theorem generateTOTP_timestamp_zero_remaining :
    (generateTOTP hmacConst0 "GEZDGNBV" (some 0) 6 30 10).map
      (fun r => r.timeRemaining) = .ok 20 ∧
    (20 : Nat) ≠ 30 - 0 % 30 := by
  decide

/-- Claim C9 as amended: for every supplied timestamp `t ≥ 1` and period in
`{30, 60}` (with decoding and HMAC succeeding), the returned
`timeRemaining` equals `period - (t mod period)` and lies in
`[1, period]`. -/
theorem generateTOTP_timeRemaining_bounds
    (hm : List Nat → List Nat → Option (List Nat)) (s : String)
    (key digest : List Nat) (t d p now : Nat)
    (hkey : base32Decode s = some key)
    (hdig : hm key (counterMessage t p) = some digest)
    (ht : 1 ≤ t) (hp : p = 30 ∨ p = 60) :
    ∃ r, generateTOTP hm s (some t) d p now = .ok r ∧
      r.timeRemaining = p - t % p ∧
      1 ≤ r.timeRemaining ∧ r.timeRemaining ≤ p := by
  have he : effectiveTime (some t) now = t := by
    simp only [effectiveTime]; rw [if_neg (by omega)]
  have h := generateTOTP_ok hm s key digest (some t) d p now hkey
    (by rw [he]; exact hdig)
  refine ⟨_, h, by simp [he], ?_, by simp only [he]; omega⟩
  have hp0 : 0 < p := by rcases hp with h | h <;> omega
  have := Nat.mod_lt t hp0
  simp only [he]
  omega

/-- Claim C9, witness: the amended statement at `t = 45`, `period = 30`
(remaining `15`). -/
theorem generateTOTP_timeRemaining_bounds_witness :
    ∃ r, generateTOTP hmacConst0 "GEZDGNBV" (some 45) 6 30 99 = .ok r ∧
      r.timeRemaining = 30 - 45 % 30 ∧
      1 ≤ r.timeRemaining ∧ r.timeRemaining ≤ 30 :=
  generateTOTP_timeRemaining_bounds hmacConst0 "GEZDGNBV" [49, 50, 51, 52, 53]
    (List.replicate 20 0) 45 6 30 99 (by decide) (by decide) (by decide)
    (Or.inl rfl)

/-! ## Claim C10 -/

/-- Claim C10, confirmed: a supplied timestamp of `0` is treated exactly
like an omitted one (`timestamp || ...` substitutes the clock), and the
result for that input genuinely depends on the ambient clock: two different
clock values give different results. -/
theorem generateTOTP_zero_timestamp_uses_clock :
    (∀ hm s d p now, generateTOTP hm s (some 0) d p now =
      generateTOTP hm s none d p now) ∧
    generateTOTP hmacConst0 "GEZDGNBV" (some 0) 6 30 10 ≠
      generateTOTP hmacConst0 "GEZDGNBV" (some 0) 6 30 20 :=
  ⟨fun _ _ _ _ _ => rfl, by decide⟩

end OtpManager
